import Mathlib

/-!
Verification development for the True Spend dashboard (Soccer-Salaries).

The repository's logic core lives in `src/app.js`.  This file gives a shallow
embedding of that core, translated line by line from the source:

* `deriveClub` and its lifted local bindings (`grossTransfersInOf`, ...)
  embed `deriveClub` at src/app.js:156-196;
* `applyFilters` embeds the filter/derive pipeline at src/app.js:200-220
  (the trailing comparator `.sort` only permutes the working set and is not
  modelled; no property below concerns list order);
* `syncClubFilterSelection` embeds the selection-scope reconciler at
  src/app.js:426-446;
* `syncSelectionFromEvent` embeds the compare-selection handler at
  src/app.js:329-344.

Monetary values are embedded as exact rationals; JS objects become structures
with `Option` fields where the source treats a field as nullable.  JS `Set`s
of identifiers become duplicate-free lists (insertion order preserved, as in
JS), with `List.contains` for `.has`.
-/

namespace TrueSpend

/-- An incoming or outgoing transfer line item (fields consumed by app.js:
`fee`, `contract_years`, `contract_confidence`). -/
structure Transfer where
  player : String
  fee : ℚ
  contract_years : Option ℚ
  contract_confidence : Option String
  is_loan : Bool
deriving DecidableEq

/-- The optional authoritative amortization summary on a club record; every
field is nullable (`??` in the source). -/
structure AmortizationSummary where
  annual_current_window : Option ℚ
  annual_prior_windows : Option ℚ
  annual_total_assets : Option ℚ
deriving DecidableEq

/-- The optional upstream confidence summary (`assumed_contracts` nullable). -/
structure ConfidenceSummary where
  assumed_contracts : Option ℚ
deriving DecidableEq

/-- A raw club record as fetched in `data/teams.json` (fields consumed by the
derivation and filter pipeline). -/
structure Club where
  team_id : String
  team_name : String
  league : String
  season : String
  wage_bill : ℚ
  transfers_in : List Transfer
  transfers_out : List Transfer
  amortization_summary : Option AmortizationSummary
  confidence_summary : Option ConfidenceSummary
deriving DecidableEq

/-- The `HIGH_CONFIDENCE` set at src/app.js:6-11. -/
def HIGH_CONFIDENCE : List String :=
  ["reported", "reported_fuzzy_match", "reported_loan", "override"]

/-- `HIGH_CONFIDENCE.has(transfer.contract_confidence)`; a missing tag is not
a member (JS `Set.has(undefined)` is `false`). -/
def isHighConfidence (t : Transfer) : Bool :=
  match t.contract_confidence with
  | some tag => HIGH_CONFIDENCE.contains tag
  | none => false

/-- `transfer.contract_years || 4` (src/app.js:159): a missing or zero
(falsy) length defaults to 4 years. -/
def resolvedYears (t : Transfer) : ℚ :=
  match t.contract_years with
  | some y => if y = 0 then 4 else y
  | none => 4

/-- `grossTransfersIn` binding, src/app.js:157. -/
def grossTransfersInOf (c : Club) : ℚ :=
  c.transfers_in.foldl (fun sum t => sum + t.fee) 0

/-- `fallbackAmortizedCurrent` binding, src/app.js:158-161. -/
def fallbackAmortizedCurrentOf (c : Club) : ℚ :=
  c.transfers_in.foldl (fun sum t => sum + t.fee / resolvedYears t) 0

/-- `amortizedCurrent` binding, src/app.js:162-163
(`summary.annual_current_window ?? fallbackAmortizedCurrent`). -/
def amortizedCurrentOf (c : Club) : ℚ :=
  match c.amortization_summary with
  | some s => s.annual_current_window.getD (fallbackAmortizedCurrentOf c)
  | none => fallbackAmortizedCurrentOf c

/-- `amortizedCarryover` binding, src/app.js:164
(`summary.annual_prior_windows ?? 0`). -/
def amortizedCarryoverOf (c : Club) : ℚ :=
  match c.amortization_summary with
  | some s => s.annual_prior_windows.getD 0
  | none => 0

/-- `amortizedTransfers` binding, src/app.js:165
(`summary.annual_total_assets ?? amortizedCurrent + amortizedCarryover`). -/
def amortizedTransfersOf (c : Club) : ℚ :=
  match c.amortization_summary with
  | some s => s.annual_total_assets.getD (amortizedCurrentOf c + amortizedCarryoverOf c)
  | none => amortizedCurrentOf c + amortizedCarryoverOf c

/-- `transferOutRevenue` binding, src/app.js:167. -/
def transferOutRevenueOf (c : Club) : ℚ :=
  c.transfers_out.foldl (fun sum t => sum + t.fee) 0

/-- `reportedContracts` binding, src/app.js:172. -/
def reportedContractsOf (c : Club) : ℕ :=
  (c.transfers_in.filter isHighConfidence).length

/-- `summaryAssumed` binding, src/app.js:173
(`club.confidence_summary ? Number(cs.assumed_contracts || 0) : 0`). -/
def summaryAssumedOf (c : Club) : ℚ :=
  match c.confidence_summary with
  | some cs => cs.assumed_contracts.getD 0
  | none => 0

/-- `inferredAssumed` binding, src/app.js:174. -/
def inferredAssumedOf (c : Club) : ℚ :=
  max ((c.transfers_in.length : ℚ) - (reportedContractsOf c : ℚ)) 0

/-- `assumedDeals` binding, src/app.js:175. -/
def assumedDealsOf (c : Club) : ℚ :=
  max (summaryAssumedOf c) (inferredAssumedOf c)

/-- `contractCoverage` binding, src/app.js:176
(`incomingCount ? reportedContracts / incomingCount : 1`). -/
def contractCoverageOf (c : Club) : ℚ :=
  if c.transfers_in.length = 0 then 1
  else (reportedContractsOf c : ℚ) / (c.transfers_in.length : ℚ)

/-- `grossCommitment` binding, src/app.js:177. -/
def grossCommitmentOf (c : Club) : ℚ :=
  c.wage_bill + amortizedTransfersOf c

/-- `wageShareOfCommitment` binding, src/app.js:178. -/
def wageShareOfCommitmentOf (c : Club) : ℚ :=
  if 0 < grossCommitmentOf c then c.wage_bill / grossCommitmentOf c else 0

/-- The derived club record returned by `deriveClub` (src/app.js:180-195);
the `club` field stands for the `...club` spread of the raw input fields. -/
structure Derived where
  club : Club
  wageBill : ℚ
  grossTransfersIn : ℚ
  amortizedTransfers : ℚ
  amortizedCurrent : ℚ
  amortizedCarryover : ℚ
  transferOutRevenue : ℚ
  netTransferCost : ℚ
  grossNetTransfers : ℚ
  incomingCount : ℕ
  reportedContracts : ℕ
  assumedDeals : ℚ
  contractCoverage : ℚ
  wageShareOfCommitment : ℚ
deriving DecidableEq

/-- `deriveClub` (src/app.js:156-196), with the local `const` bindings lifted
to the definitions above.  All monetary outputs are scaled by `fx` at return;
counts and ratios are computed from base-currency values. -/
def deriveClub (club : Club) (fx : ℚ) : Derived :=
  { club := club
    wageBill := club.wage_bill * fx
    grossTransfersIn := grossTransfersInOf club * fx
    amortizedTransfers := amortizedTransfersOf club * fx
    amortizedCurrent := amortizedCurrentOf club * fx
    amortizedCarryover := amortizedCarryoverOf club * fx
    transferOutRevenue := transferOutRevenueOf club * fx
    netTransferCost := (amortizedTransfersOf club - transferOutRevenueOf club) * fx
    grossNetTransfers := (grossTransfersInOf club - transferOutRevenueOf club) * fx
    incomingCount := club.transfers_in.length
    reportedContracts := reportedContractsOf club
    assumedDeals := assumedDealsOf club
    contractCoverage := contractCoverageOf club
    wageShareOfCommitment := wageShareOfCommitmentOf club }

/-- The two transfer view modes (`state.transferMode`). -/
inductive TransferMode where
  | cash
  | pnl_proxy
deriving DecidableEq

/-- A row of the filtered working set: the derived record plus the three
view-mode metrics added in `applyFilters` (src/app.js:207-217). -/
structure Row where
  derived : Derived
  transferInMetric : ℚ
  netTransferMetric : ℚ
  totalSpendMetric : ℚ
deriving DecidableEq

/-- The map stage of `applyFilters` (src/app.js:207-217): derive one club and
attach the view-mode-dependent metrics. -/
def deriveRow (mode : TransferMode) (club : Club) (fx : ℚ) : Row :=
  let derived := deriveClub club fx
  let transferInMetric :=
    match mode with
    | .cash => derived.grossTransfersIn
    | .pnl_proxy => derived.amortizedTransfers
  let netTransferMetric :=
    match mode with
    | .cash => derived.grossNetTransfers
    | .pnl_proxy => derived.netTransferCost
  { derived := derived
    transferInMetric := transferInMetric
    netTransferMetric := netTransferMetric
    totalSpendMetric := derived.wageBill + netTransferMetric }

/-- The UI parameter state consumed by the filter pipeline (the relevant
fields of the `state` object, src/app.js:13-30, with `fx` standing for
`computeFx(state.currency)`). -/
structure Config where
  league : String
  season : String
  clubFilter : List String
  clubFilterSearch : String
  transferMode : TransferMode
  fx : ℚ
deriving DecidableEq

/-- League filter, src/app.js:204. -/
def leaguePass (cfg : Config) (c : Club) : Bool :=
  if cfg.league == "All" then true else c.league == cfg.league

/-- Season filter, src/app.js:205. -/
def seasonPass (cfg : Config) (c : Club) : Bool :=
  if cfg.season == "All" then true else c.season == cfg.season

/-- Scope-selection membership filter, src/app.js:206. -/
def memberPass (cfg : Config) (c : Club) : Bool :=
  cfg.clubFilter.contains c.team_id

/-- The three filter stages of `applyFilters` (src/app.js:203-206), in
source order. -/
def filteredClubs (cfg : Config) (clubs : List Club) : List Club :=
  ((clubs.filter (leaguePass cfg)).filter (seasonPass cfg)).filter (memberPass cfg)

/-- `applyFilters` (src/app.js:200-220): filter stages then the derive map.
The final `.sort(compareValues)` permutation is not modelled. -/
def applyFilters (cfg : Config) (clubs : List Club) : List Row :=
  (filteredClubs cfg clubs).map (fun c => deriveRow cfg.transferMode c cfg.fx)

/-- The club-filter selection state (the `clubFilter` and
`clubFilterInitialized` fields of `state`). -/
structure ClubFilterState where
  clubFilter : List String
  clubFilterInitialized : Bool
deriving DecidableEq

/-- `syncClubFilterSelection` (src/app.js:426-446), as a function of the
current state and the identifiers of the new scope (`scopedIds`); returns the
updated state. -/
def syncClubFilterSelection (forceAll : Bool) (st : ClubFilterState)
    (scopedIds : List String) : ClubFilterState :=
  if forceAll || !st.clubFilterInitialized then
    { clubFilter := scopedIds, clubFilterInitialized := true }
  else
    let next := st.clubFilter.filter (fun id => scopedIds.contains id)
    if decide (0 < st.clubFilter.length) && decide (next.length = 0)
        && decide (0 < scopedIds.length) then
      { st with clubFilter := scopedIds }
    else
      { st with clubFilter := next }

/-- `state.selected.add(id)` on a JS `Set` modelled as a duplicate-free list:
append when absent. -/
def setAdd (s : List String) (id : String) : List String :=
  if s.contains id then s else s ++ [id]

/-- `syncSelectionFromEvent` (src/app.js:329-344) restricted to its state
transition: `checked` is the checkbox state after the toggle; when adding a
fifth club the handler unchecks the box and leaves the selection unchanged. -/
def syncSelectionFromEvent (selected : List String) (id : String)
    (checked : Bool) : List String :=
  if checked then
    if 4 ≤ selected.length then selected
    else setAdd selected id
  else selected.erase id

/-- Whether `hay` starts with `needle`, on character lists. -/
def startsWithChars : List Char → List Char → Bool
  | _, [] => true
  | [], _ :: _ => false
  | a :: as, b :: bs => a == b && startsWithChars as bs

/-- Whether `needle` occurs contiguously inside the character list. -/
def hasSubChars (needle : List Char) : List Char → Bool
  | [] => needle.isEmpty
  | c :: rest => startsWithChars (c :: rest) needle || hasSubChars needle rest

/-- JS `hay.includes(needle)`: contiguous substring test. -/
def stringIncludes (hay needle : String) : Bool :=
  hasSubChars needle.data hay.data

/-- JS `s.toLowerCase()`, character-wise. -/
def lowerString (s : String) : String :=
  String.mk (s.data.map Char.toLower)

/-- Modelled from the spec (section 4.5 of the specification): the claimed
fourth filter stage, a case-insensitive free-text substring match on the club
name.  The current `applyFilters` in src/app.js has no such stage, so this
definition follows the spec's words; it is compared against `filteredClubs`. -/
def nameSearchPass (cfg : Config) (c : Club) : Bool :=
  stringIncludes (lowerString c.team_name) (lowerString cfg.clubFilterSearch)

/-- The four-stage filter predicate claimed by the spec: league, season,
scope membership, and free-text name match. -/
def passesAllFourFilters (cfg : Config) (c : Club) : Bool :=
  leaguePass cfg c && seasonPass cfg c && memberPass cfg c && nameSearchPass cfg c

/-- Modelled from the spec (section 4.2, step 1): fallback amortization is the
sum over incoming transfers of fee divided by (contract years or 4); stated as
a map-and-sum for comparison with the source's `reduce`. -/
def specFallbackAmortized (c : Club) : ℚ :=
  (c.transfers_in.map (fun t => t.fee / resolvedYears t)).sum

/-- Modelled from the spec (section 4.2, step 2): the authoritative summary
takes precedence over the fallback; its total is used when present, otherwise
current-window (falling back to the fallback sum) plus carryover. -/
def specAmortizedTotal (c : Club) : ℚ :=
  match c.amortization_summary with
  | none => specFallbackAmortized c
  | some s =>
    match s.annual_total_assets with
    | some total => total
    | none =>
      s.annual_current_window.getD (specFallbackAmortized c)
        + s.annual_prior_windows.getD 0

/-- Well-formedness of a transfer line item per the spec's data model
(section 3): fee non-negative, contract length positive when present. -/
def Transfer.wf (t : Transfer) : Bool :=
  decide (0 ≤ t.fee) &&
    (match t.contract_years with
     | none => true
     | some y => decide (0 < y))

/-- Well-formedness of an amortization summary: all monetary figures present
are non-negative. -/
def AmortizationSummary.wf (s : AmortizationSummary) : Bool :=
  (match s.annual_current_window with | none => true | some x => decide (0 ≤ x)) &&
  (match s.annual_prior_windows with | none => true | some x => decide (0 ≤ x)) &&
  (match s.annual_total_assets with | none => true | some x => decide (0 ≤ x))

/-- Well-formedness of a raw club record per the spec's data model: wage bill
and all fees non-negative, contract years positive when present, optional
summaries carrying non-negative figures. -/
def Club.wf (c : Club) : Bool :=
  decide (0 ≤ c.wage_bill) &&
  c.transfers_in.all Transfer.wf &&
  c.transfers_out.all (fun t => decide (0 ≤ t.fee)) &&
  (match c.amortization_summary with | none => true | some s => s.wf) &&
  (match c.confidence_summary with
   | none => true
   | some cs =>
     match cs.assumed_contracts with
     | none => true
     | some x => decide (0 ≤ x))

/-- The spec's worked example club: wage bill 200, one incoming transfer of
fee 100 over 4 reported years, one outgoing transfer of fee 30, no
amortization or confidence summary. -/
def exampleClub : Club :=
  { team_id := "EX1"
    team_name := "Example FC"
    league := "Premier League"
    season := "2025/26"
    wage_bill := 200
    transfers_in :=
      [{ player := "In1", fee := 100, contract_years := some 4,
         contract_confidence := some "reported", is_loan := false }]
    transfers_out :=
      [{ player := "Out1", fee := 30, contract_years := none,
         contract_confidence := none, is_loan := false }]
    amortization_summary := none
    confidence_summary := none }

/-- A club whose upstream confidence summary reports more assumed contracts
than the club has incoming transfers. -/
def inflatedSummaryClub : Club :=
  { team_id := "CEX2"
    team_name := "Cex Town"
    league := "Premier League"
    season := "2025/26"
    wage_bill := 0
    transfers_in := []
    transfers_out := []
    amortization_summary := none
    confidence_summary := some { assumed_contracts := some 5 } }

/-- A configuration whose free-text search matches no club name. -/
def searchCfg : Config :=
  { league := "All"
    season := "All"
    clubFilter := ["EX1"]
    clubFilterSearch := "z"
    transferMode := .pnl_proxy
    fx := 1 }

theorem foldl_add_eq_sum (f : Transfer → ℚ) :
    ∀ (l : List Transfer) (a : ℚ), l.foldl (fun s t => s + f t) a = a + (l.map f).sum := by
  intro l
  induction l with
  | nil => intro a; simp
  | cons t ts ih =>
    intro a
    simp only [List.foldl_cons, List.map_cons, List.sum_cons, ih]
    ring

theorem foldl_add_nonneg (f : Transfer → ℚ) (l : List Transfer)
    (h : ∀ t ∈ l, 0 ≤ f t) : 0 ≤ l.foldl (fun s t => s + f t) 0 := by
  rw [foldl_add_eq_sum, zero_add]
  exact List.sum_nonneg (by simpa using h)

/-- C1: for the club with wage bill 200, one incoming transfer of fee 100
over 4 reported contract years, one outgoing transfer of fee 30, no summary
fields and multiplier 1, pnl_proxy derivation gives amortized transfers-in
25, net -5, total spend 195, coverage 1 and 0 assumed deals, while cash
derivation gives transfer-in 100, net 70 and total spend 270. -/
theorem example_club_derivation :
    ((deriveRow .pnl_proxy exampleClub 1).transferInMetric = 25
      ∧ (deriveRow .pnl_proxy exampleClub 1).netTransferMetric = -5
      ∧ (deriveRow .pnl_proxy exampleClub 1).totalSpendMetric = 195
      ∧ (deriveRow .pnl_proxy exampleClub 1).derived.contractCoverage = 1
      ∧ (deriveRow .pnl_proxy exampleClub 1).derived.assumedDeals = 0)
    ∧ ((deriveRow .cash exampleClub 1).transferInMetric = 100
      ∧ (deriveRow .cash exampleClub 1).netTransferMetric = 70
      ∧ (deriveRow .cash exampleClub 1).totalSpendMetric = 270) := by
  norm_num [deriveRow, deriveClub, grossTransfersInOf, fallbackAmortizedCurrentOf,
    amortizedCurrentOf, amortizedCarryoverOf, amortizedTransfersOf,
    transferOutRevenueOf, reportedContractsOf, summaryAssumedOf,
    inferredAssumedOf, assumedDealsOf, contractCoverageOf, isHighConfidence,
    resolvedYears, exampleClub, HIGH_CONFIDENCE, List.foldl, List.filter,
    max_def]

/-- C9: contract coverage lies in [0,1]; it equals reported over incoming
when the incoming count is positive and exactly 1 when it is 0, where
reported counts incoming transfers carrying a high-confidence tag and never
exceeds the incoming count. -/
theorem contract_coverage_spec (c : Club) (fx : ℚ) :
    (deriveClub c fx).reportedContracts = (c.transfers_in.filter isHighConfidence).length
    ∧ (deriveClub c fx).reportedContracts ≤ (deriveClub c fx).incomingCount
    ∧ (0 < (deriveClub c fx).incomingCount →
        (deriveClub c fx).contractCoverage
          = ((deriveClub c fx).reportedContracts : ℚ) / ((deriveClub c fx).incomingCount : ℚ))
    ∧ ((deriveClub c fx).incomingCount = 0 → (deriveClub c fx).contractCoverage = 1)
    ∧ 0 ≤ (deriveClub c fx).contractCoverage
    ∧ (deriveClub c fx).contractCoverage ≤ 1 := by
  have hle : reportedContractsOf c ≤ c.transfers_in.length :=
    List.length_filter_le _ _
  refine ⟨rfl, hle, ?_, ?_, ?_, ?_⟩
  · intro hpos
    have hne : c.transfers_in.length ≠ 0 := Nat.pos_iff_ne_zero.mp hpos
    simp [deriveClub, contractCoverageOf, hne]
  · intro hz
    have hlen : c.transfers_in.length = 0 := hz
    simp [deriveClub, contractCoverageOf, hlen]
  · by_cases hz : c.transfers_in.length = 0
    · simp [deriveClub, contractCoverageOf, hz]
    · have hpos : (0 : ℚ) < (c.transfers_in.length : ℚ) := by
        exact_mod_cast Nat.pos_of_ne_zero hz
      simp only [deriveClub, contractCoverageOf, hz, if_false]
      positivity
  · by_cases hz : c.transfers_in.length = 0
    · simp [deriveClub, contractCoverageOf, hz]
    · have hpos : (0 : ℚ) < (c.transfers_in.length : ℚ) := by
        exact_mod_cast Nat.pos_of_ne_zero hz
      simp only [deriveClub, contractCoverageOf, hz, if_false]
      rw [div_le_one hpos]
      exact_mod_cast hle

theorem contract_coverage_spec_witness :
    (deriveClub exampleClub 1).contractCoverage
      = ((deriveClub exampleClub 1).reportedContracts : ℚ)
          / ((deriveClub exampleClub 1).incomingCount : ℚ) :=
  (contract_coverage_spec exampleClub 1).2.2.1 (by decide)

/-- C6: switching the view mode never changes the derived record itself:
cash and pnl_proxy rows share the derived component (hence wage bill,
transfer-out revenue, coverage, reported and assumed counts, incoming count
and wage share), and a row consists of nothing but that component and the
three view-mode metrics. -/
theorem view_mode_metric_purity (c : Club) (fx : ℚ) :
    (deriveRow .cash c fx).derived = (deriveRow .pnl_proxy c fx).derived
    ∧ (deriveRow .cash c fx).derived.wageBill = (deriveRow .pnl_proxy c fx).derived.wageBill
    ∧ (deriveRow .cash c fx).derived.transferOutRevenue
        = (deriveRow .pnl_proxy c fx).derived.transferOutRevenue
    ∧ (deriveRow .cash c fx).derived.contractCoverage
        = (deriveRow .pnl_proxy c fx).derived.contractCoverage
    ∧ (deriveRow .cash c fx).derived.reportedContracts
        = (deriveRow .pnl_proxy c fx).derived.reportedContracts
    ∧ (deriveRow .cash c fx).derived.assumedDeals
        = (deriveRow .pnl_proxy c fx).derived.assumedDeals
    ∧ (deriveRow .cash c fx).derived.incomingCount
        = (deriveRow .pnl_proxy c fx).derived.incomingCount
    ∧ (deriveRow .cash c fx).derived.wageShareOfCommitment
        = (deriveRow .pnl_proxy c fx).derived.wageShareOfCommitment :=
  ⟨rfl, rfl, rfl, rfl, rfl, rfl, rfl, rfl⟩

/-- C5: currency conversion is a homomorphism on derivation: every monetary
field at multiplier `fx` equals `fx` times its value at multiplier 1, in
either view mode, while ratios (coverage, wage share) and counts (incoming,
reported, assumed) do not depend on the multiplier. -/
theorem currency_conversion_homomorphism (c : Club) (fx : ℚ) (mode : TransferMode) :
    (deriveClub c fx).wageBill = fx * (deriveClub c 1).wageBill
    ∧ (deriveClub c fx).grossTransfersIn = fx * (deriveClub c 1).grossTransfersIn
    ∧ (deriveClub c fx).amortizedTransfers = fx * (deriveClub c 1).amortizedTransfers
    ∧ (deriveClub c fx).amortizedCurrent = fx * (deriveClub c 1).amortizedCurrent
    ∧ (deriveClub c fx).amortizedCarryover = fx * (deriveClub c 1).amortizedCarryover
    ∧ (deriveClub c fx).transferOutRevenue = fx * (deriveClub c 1).transferOutRevenue
    ∧ (deriveClub c fx).netTransferCost = fx * (deriveClub c 1).netTransferCost
    ∧ (deriveClub c fx).grossNetTransfers = fx * (deriveClub c 1).grossNetTransfers
    ∧ (deriveRow mode c fx).transferInMetric = fx * (deriveRow mode c 1).transferInMetric
    ∧ (deriveRow mode c fx).netTransferMetric = fx * (deriveRow mode c 1).netTransferMetric
    ∧ (deriveRow mode c fx).totalSpendMetric = fx * (deriveRow mode c 1).totalSpendMetric
    ∧ (deriveClub c fx).contractCoverage = (deriveClub c 1).contractCoverage
    ∧ (deriveClub c fx).wageShareOfCommitment = (deriveClub c 1).wageShareOfCommitment
    ∧ (deriveClub c fx).incomingCount = (deriveClub c 1).incomingCount
    ∧ (deriveClub c fx).reportedContracts = (deriveClub c 1).reportedContracts
    ∧ (deriveClub c fx).assumedDeals = (deriveClub c 1).assumedDeals := by
  cases mode <;>
    exact ⟨by simp [deriveClub]; ring, by simp [deriveClub]; ring,
      by simp [deriveClub]; ring, by simp [deriveClub]; ring,
      by simp [deriveClub]; ring, by simp [deriveClub]; ring,
      by simp [deriveClub]; ring, by simp [deriveClub]; ring,
      by simp [deriveRow, deriveClub]; ring, by simp [deriveRow, deriveClub]; ring,
      by simp [deriveRow, deriveClub]; ring, rfl, rfl, rfl, rfl, rfl⟩

/-- C8: amortization resolution: with no summary the amortized total is the
fallback sum (fee over contract years, defaulting to 4) and carryover is 0;
with a summary its current and prior figures are used directly, the total is
the summary total when present and otherwise current plus carryover, current
itself falling back to the fallback sum when absent; in all cases the total
agrees with the resolution rule stated by the spec (`specAmortizedTotal`). -/
theorem amortization_resolution (c : Club) (fx : ℚ) :
    (deriveClub c fx).amortizedTransfers = specAmortizedTotal c * fx
    ∧ (c.amortization_summary = none →
        (deriveClub c fx).amortizedTransfers = fallbackAmortizedCurrentOf c * fx
        ∧ (deriveClub c fx).amortizedCarryover = 0
        ∧ (deriveClub c fx).amortizedCurrent = fallbackAmortizedCurrentOf c * fx)
    ∧ (∀ s, c.amortization_summary = some s →
        (deriveClub c fx).amortizedCurrent
          = s.annual_current_window.getD (fallbackAmortizedCurrentOf c) * fx
        ∧ (deriveClub c fx).amortizedCarryover = s.annual_prior_windows.getD 0 * fx
        ∧ (deriveClub c fx).amortizedTransfers
          = s.annual_total_assets.getD (amortizedCurrentOf c + amortizedCarryoverOf c) * fx) := by
  have hfb : fallbackAmortizedCurrentOf c = specFallbackAmortized c := by
    rw [fallbackAmortizedCurrentOf, specFallbackAmortized, foldl_add_eq_sum, zero_add]
  refine ⟨?_, ?_, ?_⟩
  · cases hs : c.amortization_summary with
    | none =>
      simp [deriveClub, amortizedTransfersOf, amortizedCurrentOf, amortizedCarryoverOf,
        specAmortizedTotal, hs, hfb]
    | some s =>
      cases ht : s.annual_total_assets with
      | none =>
        simp [deriveClub, amortizedTransfersOf, amortizedCurrentOf, amortizedCarryoverOf,
          specAmortizedTotal, hs, ht, hfb]
      | some total =>
        simp [deriveClub, amortizedTransfersOf, specAmortizedTotal, hs, ht]
  · intro hs
    simp [deriveClub, amortizedTransfersOf, amortizedCurrentOf, amortizedCarryoverOf, hs]
  · intro s hs
    simp [deriveClub, amortizedTransfersOf, amortizedCurrentOf, amortizedCarryoverOf, hs]

theorem amortization_resolution_witness :
    (deriveClub exampleClub 1).amortizedTransfers = fallbackAmortizedCurrentOf exampleClub * 1
    ∧ (deriveClub exampleClub 1).amortizedCarryover = 0 :=
  ⟨((amortization_resolution exampleClub 1).2.1 rfl).1,
    ((amortization_resolution exampleClub 1).2.1 rfl).2.1⟩

theorem resolvedYears_pos (t : Transfer) (h : t.wf = true) : 0 < resolvedYears t := by
  cases hy : t.contract_years with
  | none =>
    have hr : resolvedYears t = 4 := by rw [resolvedYears, hy]
    rw [hr]; norm_num
  | some y =>
    simp only [Transfer.wf, Bool.and_eq_true, decide_eq_true_eq, hy] at h
    rcases h with ⟨-, hpos⟩
    have hr : resolvedYears t = if y = 0 then 4 else y := by rw [resolvedYears, hy]
    rw [hr]
    split
    · norm_num
    · exact hpos

theorem fallback_nonneg (c : Club) (h : ∀ t ∈ c.transfers_in, t.wf = true) :
    0 ≤ fallbackAmortizedCurrentOf c := by
  refine foldl_add_nonneg _ _ (fun t ht => ?_)
  have hw := h t ht
  have hy := resolvedYears_pos t hw
  simp only [Transfer.wf, Bool.and_eq_true, decide_eq_true_eq] at hw
  exact div_nonneg hw.1 hy.le

theorem wf_transfers_in (c : Club) (h : c.wf = true) :
    ∀ t ∈ c.transfers_in, t.wf = true := by
  simp only [Club.wf, Bool.and_eq_true, List.all_eq_true] at h
  exact h.1.1.1.2

theorem amortizedTransfersOf_nonneg (c : Club) (h : c.wf = true) :
    0 ≤ amortizedTransfersOf c := by
  have hfb : 0 ≤ fallbackAmortizedCurrentOf c := fallback_nonneg c (wf_transfers_in c h)
  simp only [Club.wf, Bool.and_eq_true, List.all_eq_true] at h
  have hsum := h.1.2
  have hcur : 0 ≤ amortizedCurrentOf c := by
    cases hs : c.amortization_summary with
    | none =>
      have hr : amortizedCurrentOf c = fallbackAmortizedCurrentOf c := by
        rw [amortizedCurrentOf, hs]
      rw [hr]; exact hfb
    | some s =>
      have hr : amortizedCurrentOf c
          = s.annual_current_window.getD (fallbackAmortizedCurrentOf c) := by
        rw [amortizedCurrentOf, hs]
      rw [hs] at hsum
      simp only [AmortizationSummary.wf, Bool.and_eq_true] at hsum
      rw [hr]
      cases hw : s.annual_current_window with
      | none => rw [Option.getD_none]; exact hfb
      | some x =>
        have hx := hsum.1.1
        rw [hw] at hx
        rw [Option.getD_some]
        simpa using hx
  have hcarry : 0 ≤ amortizedCarryoverOf c := by
    cases hs : c.amortization_summary with
    | none =>
      have hr : amortizedCarryoverOf c = 0 := by rw [amortizedCarryoverOf, hs]
      rw [hr]
    | some s =>
      have hr : amortizedCarryoverOf c = s.annual_prior_windows.getD 0 := by
        rw [amortizedCarryoverOf, hs]
      rw [hs] at hsum
      simp only [AmortizationSummary.wf, Bool.and_eq_true] at hsum
      rw [hr]
      cases hw : s.annual_prior_windows with
      | none => rw [Option.getD_none]
      | some x =>
        have hx := hsum.1.2
        rw [hw] at hx
        rw [Option.getD_some]
        simpa using hx
  cases hs : c.amortization_summary with
  | none =>
    have hr : amortizedTransfersOf c = amortizedCurrentOf c + amortizedCarryoverOf c := by
      rw [amortizedTransfersOf, hs]
    rw [hr]; exact add_nonneg hcur hcarry
  | some s =>
    have hr : amortizedTransfersOf c
        = s.annual_total_assets.getD (amortizedCurrentOf c + amortizedCarryoverOf c) := by
      rw [amortizedTransfersOf, hs]
    rw [hs] at hsum
    simp only [AmortizationSummary.wf, Bool.and_eq_true] at hsum
    rw [hr]
    cases hw : s.annual_total_assets with
    | none => rw [Option.getD_none]; exact add_nonneg hcur hcarry
    | some x =>
      have hx := hsum.2
      rw [hw] at hx
      rw [Option.getD_some]
      simpa using hx

theorem wf_wage_nonneg (c : Club) (h : c.wf = true) : 0 ≤ c.wage_bill := by
  simp only [Club.wf, Bool.and_eq_true, decide_eq_true_eq] at h
  exact h.1.1.1.1

/-- C7: for every well-formed club record, wage share of commitment equals
wage bill over (wage bill + amortized total) when that denominator is
positive and 0 when it is not positive (so in particular when it is 0); it
lies in [0,1]; and the same value is produced in cash and pnl_proxy modes
(it is computed from the amortized total, never the view-mode metric). -/
theorem wage_share_spec (c : Club) (fx : ℚ) (h : c.wf = true) :
    (0 < c.wage_bill + amortizedTransfersOf c →
        (deriveClub c fx).wageShareOfCommitment
          = c.wage_bill / (c.wage_bill + amortizedTransfersOf c))
    ∧ (c.wage_bill + amortizedTransfersOf c = 0 →
        (deriveClub c fx).wageShareOfCommitment = 0)
    ∧ 0 ≤ (deriveClub c fx).wageShareOfCommitment
    ∧ (deriveClub c fx).wageShareOfCommitment ≤ 1
    ∧ (deriveRow .cash c fx).derived.wageShareOfCommitment
        = (deriveRow .pnl_proxy c fx).derived.wageShareOfCommitment := by
  have hw : 0 ≤ c.wage_bill := wf_wage_nonneg c h
  have ha : 0 ≤ amortizedTransfersOf c := amortizedTransfersOf_nonneg c h
  refine ⟨?_, ?_, ?_, ?_, rfl⟩
  · intro hpos
    simp [deriveClub, wageShareOfCommitmentOf, grossCommitmentOf, hpos]
  · intro hzero
    simp [deriveClub, wageShareOfCommitmentOf, grossCommitmentOf, hzero]
  · by_cases hpos : 0 < grossCommitmentOf c
    · simp only [deriveClub, wageShareOfCommitmentOf, hpos, if_true]
      exact div_nonneg hw hpos.le
    · simp [deriveClub, wageShareOfCommitmentOf, hpos]
  · by_cases hpos : 0 < grossCommitmentOf c
    · simp only [deriveClub, wageShareOfCommitmentOf, hpos, if_true]
      rw [div_le_one hpos]
      exact le_add_of_nonneg_right ha
    · simp [deriveClub, wageShareOfCommitmentOf, hpos]

theorem wage_share_spec_witness :
    0 ≤ (deriveClub exampleClub 1).wageShareOfCommitment
    ∧ (deriveClub exampleClub 1).wageShareOfCommitment ≤ 1 :=
  ⟨(wage_share_spec exampleClub 1 (by decide)).2.2.1,
    (wage_share_spec exampleClub 1 (by decide)).2.2.2.1⟩

/-- C2 counterexample: a club with no incoming transfers whose upstream
confidence summary reports 5 assumed contracts derives assumedDeals 5,
strictly exceeding its incoming count 0, so the claimed bound
`assumedDeals ≤ incomingCount` fails on the code as stated. -/
theorem assumed_deals_exceeds_incoming :
    (deriveClub inflatedSummaryClub 1).incomingCount = 0
    ∧ (deriveClub inflatedSummaryClub 1).assumedDeals = 5
    ∧ ¬ ((deriveClub inflatedSummaryClub 1).assumedDeals
          ≤ ((deriveClub inflatedSummaryClub 1).incomingCount : ℚ)) := by
  refine ⟨rfl, ?_, ?_⟩ <;>
    norm_num [deriveClub, assumedDealsOf, summaryAssumedOf, inferredAssumedOf,
      reportedContractsOf, inflatedSummaryClub, max_def]

/-- C2 (amended): assumedDeals, the max of the upstream assumed count and the
inferred count, is non-negative for every club record; and it is at most
incomingCount whenever the upstream assumed-contract count is at most the
incoming count (in particular whenever no confidence summary is present). -/
theorem assumed_deals_bounds (c : Club) (fx : ℚ) :
    0 ≤ (deriveClub c fx).assumedDeals
    ∧ (summaryAssumedOf c ≤ (c.transfers_in.length : ℚ) →
        (deriveClub c fx).assumedDeals ≤ ((deriveClub c fx).incomingCount : ℚ)) := by
  constructor
  · have : (0 : ℚ) ≤ inferredAssumedOf c := le_max_right _ _
    exact this.trans (le_max_right _ _)
  · intro h
    show assumedDealsOf c ≤ (c.transfers_in.length : ℚ)
    refine max_le h (max_le ?_ ?_)
    · have : (0 : ℚ) ≤ (reportedContractsOf c : ℚ) := by positivity
      linarith
    · positivity

theorem assumed_deals_bounds_witness :
    0 ≤ (deriveClub inflatedSummaryClub 1).assumedDeals
    ∧ 0 ≤ (deriveClub exampleClub 1).assumedDeals
    ∧ (deriveClub exampleClub 1).assumedDeals
        ≤ ((deriveClub exampleClub 1).incomingCount : ℚ) :=
  ⟨(assumed_deals_bounds inflatedSummaryClub 1).1,
    (assumed_deals_bounds exampleClub 1).1,
    (assumed_deals_bounds exampleClub 1).2 (by decide)⟩

/-- C4: after first initialization, a scope change intersects the selection
with the new scope's identifiers (membership form); when that intersection is
empty while the previous selection and the new scope are both non-empty, the
selection resets to all identifiers in scope; a forced reset or an
uninitialized state also selects the whole scope; in particular selection
[A,B,C] against scope [B,D] yields [B], and selection [A,B] against the
disjoint scope [C,D] yields [C,D]. -/
theorem scope_reconciliation_spec (st : ClubFilterState) (ids : List String)
    (hInit : st.clubFilterInitialized = true) :
    ((st.clubFilter.filter (fun id => ids.contains id) ≠ [] ∨ st.clubFilter = [] ∨ ids = []) →
      ∀ x, x ∈ (syncClubFilterSelection false st ids).clubFilter
        ↔ (x ∈ st.clubFilter ∧ x ∈ ids))
    ∧ ((st.clubFilter ≠ [] ∧ ids ≠ []
          ∧ st.clubFilter.filter (fun id => ids.contains id) = []) →
      (syncClubFilterSelection false st ids).clubFilter = ids)
    ∧ (∀ st2 ids2, (syncClubFilterSelection true st2 ids2).clubFilter = ids2)
    ∧ (∀ st2 ids2, st2.clubFilterInitialized = false →
        (syncClubFilterSelection false st2 ids2).clubFilter = ids2)
    ∧ (syncClubFilterSelection false ⟨["A", "B", "C"], true⟩ ["B", "D"]).clubFilter = ["B"]
    ∧ (syncClubFilterSelection false ⟨["A", "B"], true⟩ ["C", "D"]).clubFilter = ["C", "D"] := by
  refine ⟨?_, ?_, ?_, ?_, by decide, by decide⟩
  · intro hcase x
    rw [syncClubFilterSelection, hInit]
    simp only [Bool.not_true, Bool.or_false, Bool.false_or, if_neg (by simp : ¬ (false = true))]
    rcases hcase with hne | hsel | hids
    · rw [if_neg]
      · simp [List.mem_filter]
      · simp only [Bool.and_eq_true, decide_eq_true_eq]
        rintro ⟨⟨-, hlen⟩, -⟩
        exact hne (List.length_eq_zero.mp hlen)
    · rw [if_neg]
      · simp [List.mem_filter]
      · simp only [Bool.and_eq_true, decide_eq_true_eq]
        rintro ⟨⟨hpos, -⟩, -⟩
        rw [hsel] at hpos
        simp at hpos
    · rw [if_neg]
      · simp [List.mem_filter]
      · simp only [Bool.and_eq_true, decide_eq_true_eq]
        rintro ⟨-, hpos⟩
        rw [hids] at hpos
        simp at hpos
  · rintro ⟨hsel, hids, hempty⟩
    rw [syncClubFilterSelection, hInit]
    simp only [Bool.not_true, Bool.or_false, Bool.false_or, if_neg (by simp : ¬ (false = true))]
    rw [if_pos]
    simp only [Bool.and_eq_true, decide_eq_true_eq]
    exact ⟨⟨List.length_pos.mpr hsel, by rw [hempty]; rfl⟩, List.length_pos.mpr hids⟩
  · intro st2 ids2
    rw [syncClubFilterSelection]
    simp
  · intro st2 ids2 h2
    rw [syncClubFilterSelection, h2]
    simp

theorem scope_reconciliation_spec_witness :
    (syncClubFilterSelection false ⟨["A", "B", "C"], true⟩ ["B", "D"]).clubFilter = ["B"] :=
  (scope_reconciliation_spec ⟨["A", "B", "C"], true⟩ ["B", "D"] rfl).2.2.2.2.1

/-- C10: the compare selection never exceeds 4 clubs: a check event on a full
selection is rejected leaving the state unchanged, an uncheck always removes
the identifier, and any event on a selection of size at most 4 yields a
selection of size at most 4. -/
theorem compare_selection_cap (selected : List String) (id : String) (checked : Bool)
    (h : selected.length ≤ 4) :
    (syncSelectionFromEvent selected id checked).length ≤ 4
    ∧ (4 ≤ selected.length → checked = true →
        syncSelectionFromEvent selected id checked = selected)
    ∧ (checked = false → syncSelectionFromEvent selected id checked = selected.erase id) := by
  cases checked with
  | false =>
    have hstep : syncSelectionFromEvent selected id false = selected.erase id := by
      simp [syncSelectionFromEvent]
    refine ⟨?_, ?_, ?_⟩
    · rw [hstep]
      exact le_trans (List.erase_sublist id selected).length_le h
    · intro _ hc
      exact nomatch hc
    · intro _
      exact hstep
  | true =>
    have hstep : syncSelectionFromEvent selected id true
        = if 4 ≤ selected.length then selected else setAdd selected id := by
      simp [syncSelectionFromEvent]
    by_cases hfull : 4 ≤ selected.length
    · rw [hstep, if_pos hfull]
      exact ⟨h, fun _ _ => rfl, fun hc => nomatch hc⟩
    · rw [hstep, if_neg hfull]
      refine ⟨?_, fun habs _ => absurd habs hfull, fun hc => nomatch hc⟩
      rw [setAdd]
      split
      · exact h
      · have hlt : selected.length < 4 := Nat.lt_of_not_le hfull
        simp only [List.length_append, List.length_cons, List.length_nil]
        omega

theorem compare_selection_cap_witness :
    (syncSelectionFromEvent ["A", "B", "C", "D"] "E" true).length ≤ 4
    ∧ syncSelectionFromEvent ["A", "B", "C", "D"] "E" true = ["A", "B", "C", "D"] :=
  ⟨(compare_selection_cap ["A", "B", "C", "D"] "E" true (by decide)).1,
    (compare_selection_cap ["A", "B", "C", "D"] "E" true (by decide)).2.1 (by decide) rfl⟩

/-- C3 counterexample: with league and season at "All", a selected club and
the free-text search "z", the club "Example FC" survives `applyFilters` even
though its name fails the case-insensitive substring match, so the claimed
four-filter characterization of the working set is false: the current
pipeline never consults the free-text search. -/
theorem search_filter_counterexample :
    (filteredClubs searchCfg [exampleClub]).map Club.team_id = ["EX1"]
    ∧ (applyFilters searchCfg [exampleClub]).length = 1
    ∧ passesAllFourFilters searchCfg exampleClub = false := by
  refine ⟨by decide, rfl, by decide⟩

/-- C3 (amended): the pipeline applies, in order, league equality (with "All"
pass-through), season equality (with "All" pass-through) and scope-selection
membership; a club is in the filtered working set exactly when it passes
those three filters; the free-text search never changes the working set (it
only narrows the club-filter menu display), and the surviving clubs are then
derived under the configured mode and multiplier. -/
theorem filter_pipeline_membership (cfg : Config) (clubs : List Club) (c : Club) :
    (c ∈ filteredClubs cfg clubs
      ↔ (c ∈ clubs ∧ leaguePass cfg c = true ∧ seasonPass cfg c = true
          ∧ memberPass cfg c = true))
    ∧ (∀ s, filteredClubs { cfg with clubFilterSearch := s } clubs = filteredClubs cfg clubs)
    ∧ applyFilters cfg clubs
        = (filteredClubs cfg clubs).map (fun x => deriveRow cfg.transferMode x cfg.fx) := by
  refine ⟨?_, fun s => rfl, rfl⟩
  simp only [filteredClubs, List.mem_filter]
  tauto

end TrueSpend
